import Mathlib

/-!
Shallow embedding of the tool functions of the AgenticDevelopments repository
(currency conversion, planet-mass lookup, internet search, weather lookup,
paper download with retry, Self-RAG document grading, the LangGraph
email/weather routing, and the upward folder search), together with proofs
about their behaviour.

Python values flowing through these functions (parsed JSON, numbers, strings)
are embedded as an inductive `JsonVal`; raised Python exceptions are embedded
as a structure `PyExc` carrying the class name and whether the class is a
subclass of `Exception` (so that `except Exception` handlers can be modelled
exactly); fallible code returns `Except PyExc`.  External effects (HTTP
responses, environment variables, the LLM, the clock, the filesystem) are
passed in as explicit parameters, so each function is settled for every
possible behaviour of its environment.
-/

namespace AgenticDev

/-- JsonVal models a Python value produced by `json.loads` or passed between
the tool functions: `None`, booleans, numbers (ints and floats are both
embedded as exact rationals), strings, lists, and dicts (as association
lists in insertion order). -/
inductive JsonVal where
  | null : JsonVal
  | bool (b : Bool) : JsonVal
  | num (q : ℚ) : JsonVal
  | str (s : String) : JsonVal
  | arr (xs : List JsonVal) : JsonVal
  | obj (fields : List (String × JsonVal)) : JsonVal

/-- PyExc models a raised Python exception: the class name, the message, and
whether the class is a subclass of `Exception`.  `SystemExit` and
`KeyboardInterrupt` subclass only `BaseException`, so an
`except Exception` handler does not catch them; the flag records this. -/
structure PyExc where
  name : String
  msg : String
  isException : Bool
  deriving DecidableEq

/-- Py is the result type of embedded fallible Python code: a normal return
value, or a raised exception. -/
abbrev Py (α : Type) := Except PyExc α

def keyError (k : String) : PyExc := ⟨"KeyError", k, true⟩

def typeError (m : String) : PyExc := ⟨"TypeError", m, true⟩

def valueError (m : String) : PyExc := ⟨"ValueError", m, true⟩

def indexError (m : String) : PyExc := ⟨"IndexError", m, true⟩

def attributeError (m : String) : PyExc := ⟨"AttributeError", m, true⟩

/-- connError models a `requests.exceptions.ConnectionError` raised by an
HTTP call on network failure (an `Exception` subclass). -/
def connError : PyExc := ⟨"ConnectionError", "network failure", true⟩

/-- getItem models the Python subscript `data[k]` with a string key: on a
dict it returns the value at the key or raises `KeyError`; the tool code
only ever subscripts dicts with string keys, and on any other value the
subscript raises `TypeError`. -/
def JsonVal.getItem : JsonVal → String → Py JsonVal
  | .obj fields, k =>
      match fields.lookup k with
      | some v => .ok v
      | none => .error (keyError k)
  | _, _ => .error (typeError "value is not subscriptable by a string key")

/-- pyIn models the Python membership test `k in v` for a string `k`: key
membership on a dict, element membership on a list (Python `==` against a
string is false on every non-string json value), substring containment on a
string, and `TypeError` otherwise. -/
def pyIn (k : String) : JsonVal → Py Bool
  | .obj fields => .ok (fields.any (fun f => f.1 == k))
  | .arr xs => .ok (xs.any (fun x => match x with | .str s => s == k | _ => false))
  | .str s => .ok (decide (1 < (s.splitOn k).length))
  | _ => .error (typeError "argument is not iterable")

/-- asNum models using a json value as a number in an arithmetic operation:
non-numbers raise `TypeError`. -/
def JsonVal.asNum : JsonVal → Py ℚ
  | .num q => .ok q
  | _ => .error (typeError "unsupported operand type")

/-- pyLen models the Python builtin `len`: defined on strings, lists and
dicts, `TypeError` otherwise. -/
def pyLen : JsonVal → Py ℕ
  | .str s => .ok s.length
  | .arr xs => .ok xs.length
  | .obj fields => .ok fields.length
  | _ => .error (typeError "object has no len")

/-- fracDigits produces the decimal digits of the fraction `rem / d` by long
division, stopping at the first exact digit or after the given number of
digits. -/
def fracDigits (rem d : ℕ) : ℕ → List ℕ
  | 0 => []
  | k + 1 => if rem == 0 then [] else (rem * 10) / d :: fracDigits ((rem * 10) % d) d k

/-- pyNumRepr models `str` applied to a number: exact decimal rendering with
at least one fractional digit (so `str(21.0) = "21.0"`), truncated after 30
digits for non-terminating fractions; the shortest-roundtrip behaviour of
CPython float repr is abstracted to exact decimal rendering of the embedded
rational. -/
def pyNumRepr (q : ℚ) : String :=
  let sign := if q < 0 then "-" else ""
  let n := q.num.natAbs
  let d := q.den
  let ds := fracDigits (n % d) d 30
  let fp := if ds.isEmpty then "0" else String.join (ds.map (fun x => toString x))
  sign ++ toString (n / d) ++ "." ++ fp

/-- pyRepr models the Python `repr` of a json value (which `str` delegates to
for values inside containers). -/
def pyRepr : JsonVal → String
  | .null => "None"
  | .bool b => if b then "True" else "False"
  | .num q => pyNumRepr q
  | .str s => "\x27" ++ s ++ "\x27"
  | .arr xs => "[" ++ String.intercalate ", " (xs.attach.map (fun x => pyRepr x.1)) ++ "]"
  | .obj fs => "\x7b" ++
      String.intercalate ", "
        (fs.attach.map (fun f => "\x27" ++ f.1.1 ++ "\x27: " ++ pyRepr f.1.2)) ++ "\x7d"
termination_by v => sizeOf v
decreasing_by
  · have h := List.sizeOf_lt_of_mem x.2
    simp only [JsonVal.arr.sizeOf_spec]
    omega
  · have h := List.sizeOf_lt_of_mem f.2
    obtain ⟨⟨k, v⟩, hf⟩ := f
    simp only [Prod.mk.sizeOf_spec] at h
    simp only [JsonVal.obj.sizeOf_spec]
    omega

/-- pyToStr models the Python `str` of a json value, as used by f-string
interpolation: a string is used verbatim, containers print via `repr`. -/
def pyToStr : JsonVal → String
  | .str s => s
  | v => pyRepr v

/-- format2f models the f-string conversion `{x:.2f}`: fixed-point rendering
with two fractional digits (ties of the underlying binary float are
abstracted to rounding of the embedded exact rational). -/
def format2f (q : ℚ) : String :=
  (if round (q * 100) < 0 then "-" else "") ++
  toString ((round (q * 100)).natAbs / 100) ++ "." ++
  (if (round (q * 100)).natAbs % 100 < 10 then "0" ++ toString ((round (q * 100)).natAbs % 100)
   else toString ((round (q * 100)).natAbs % 100))

/-- pyMapM embeds a Python for-loop that runs a fallible step on each element
and collects the results in order, stopping at (and propagating) the first
raised exception. -/
def pyMapM {α β : Type} (f : α → Py β) : List α → Py (List β)
  | [] => .ok []
  | a :: t => do
    let b ← f a
    let bs ← pyMapM f t
    .ok (b :: bs)

/-- PFloat models a Python float as used by the aisTools functions: either an
ordinary numeric value (embedded as an exact rational) or the value
`float("nan")`. -/
inductive PFloat where
  | val (q : ℚ) : PFloat
  | nan : PFloat
  deriving DecidableEq

namespace Phi

/-- planet_masses embeds the dict literal of `get_planet_mass` in
`src/phi-experiments/aisTools.py` (the decimal float literals are embedded
as exact rationals, all of which are integers). -/
def planet_masses : List (String × ℚ) :=
  [("mercury", 330110000000000000000000),
   ("venus", 4867500000000000000000000),
   ("earth", 5972300000000000000000000),
   ("mars", 641710000000000000000000),
   ("jupiter", 1898200000000000000000000000),
   ("saturn", 568340000000000000000000000),
   ("uranus", 86810000000000000000000000),
   ("neptune", 102413000000000000000000000)]

/-- get_planet_mass embeds `get_planet_mass` of
`src/phi-experiments/aisTools.py` (byte-identical in
`src/2.Templates_Tested/Agents-workshop/Reference_Templates_Tested/Agent_from_Scratch_r0/aisTools.py`):
`planet_masses.get(planet_name.lower(), float("nan"))`. -/
def get_planet_mass (planet_name : String) : PFloat :=
  match planet_masses.lookup planet_name.toLower with
  | some q => .val q
  | none => .nan

end Phi

namespace Tools

/-- curr_conv embeds `curr_conv` of `src/Tools/currency_exchg.py`.  The HTTP
request plus `response.json()` is passed in as `resp : Py JsonVal` (a parsed
body, or the exception the call raised).  The function has no try/except: a
raised exception propagates through every step.  The converted amount is
`data["rates"][target_curr] * amount` and the return value is the f-string
with both numbers formatted by `:.2f`. -/
def curr_conv (resp : Py JsonVal) (amount : ℚ) (source_curr target_curr : String) :
    Py JsonVal := do
  let data ← resp
  let rates ← data.getItem "rates"
  let present ← pyIn target_curr rates
  if !present then
    return .str ("Error: Target currency \x27" ++ target_curr ++
      "\x27 not available in the exchange rates.")
  let rateVal ← rates.getItem target_curr
  let rate ← rateVal.asNum
  return .str (format2f amount ++ " " ++ source_curr ++ " is equivalent to: " ++
    format2f (rate * amount) ++ " " ++ target_curr)

end Tools

namespace Phi

/-- currency_converter embeds `currency_converter` of
`src/phi-experiments/aisTools.py`: same request, parse, and rates check as
`curr_conv`, but after `amount = float(amount)` (the identity on the
rational embedding of a numeric amount) it returns the bare converted
number `conv`, not the formatted string (that return is commented out in
the source). -/
def currency_converter (resp : Py JsonVal) (amount : ℚ) (source_curr target_curr : String) :
    Py JsonVal := do
  let data ← resp
  let rates ← data.getItem "rates"
  let present ← pyIn target_curr rates
  if !present then
    return .str ("Error: Target currency \x27" ++ target_curr ++
      "\x27 not available in the exchange rates.")
  let rateVal ← rates.getItem target_curr
  let rate ← rateVal.asNum
  return .num (rate * amount)

/-- calculate embeds `calculate` of `src/phi-experiments/aisTools.py`.  The
try-block `float(eval(expression))` is passed in as the oracle `body`
(Python `eval` runs arbitrary code, so its outcome on a given expression is
an environment fact); `except Exception` catches exactly the raised errors
whose class subclasses `Exception`, returns `float("nan")` for them, and
lets every other raised `BaseException` propagate. -/
def calculate (body : String → Py PFloat) (expression : String) : Py PFloat :=
  match body expression with
  | .ok f => .ok f
  | .error e => if e.isException then .ok .nan else .error e

end Phi

namespace Workshop

/-- currency_converter embeds `currency_converter` of
`src/2.Templates_Tested/Agents-workshop/Reference_Templates_Tested/Agent_from_Scratch_r0/aisTools.py`:
identical to `Tools.curr_conv` up to `amount = float(amount)` (the identity
here) and a print, and it returns the same `:.2f`-formatted string. -/
def currency_converter (resp : Py JsonVal) (amount : ℚ) (source_curr target_curr : String) :
    Py JsonVal := do
  let data ← resp
  let rates ← data.getItem "rates"
  let present ← pyIn target_curr rates
  if !present then
    return .str ("Error: Target currency \x27" ++ target_curr ++
      "\x27 not available in the exchange rates.")
  let rateVal ← rates.getItem target_curr
  let rate ← rateVal.asNum
  return .str (format2f amount ++ " " ++ source_curr ++ " is equivalent to: " ++
    format2f (rate * amount) ++ " " ++ target_curr)

end Workshop

namespace SearchTools

/-- fmtResult embeds one iteration of the result-formatting loop of
`SearchTools.search_internet` in `src/Tools/search_tools.py`: the joined
Title/Link/Snippet block, where the `try/except KeyError` catches only a
missing key (`KeyError`) and skips the result, while any other exception
(for instance the `TypeError` of subscripting a non-dict) propagates. -/
def fmtResult (result : JsonVal) : Py (Option String) :=
  tryCatch
    (do
      let t ← result.getItem "title"
      let l ← result.getItem "link"
      let sn ← result.getItem "snippet"
      pure (some ("Title: " ++ pyToStr t ++ "\nLink: " ++ pyToStr l ++ "\nSnippet: " ++
        pyToStr sn ++ "\n\n-----------------")))
    (fun e => if e.name == "KeyError" then pure none else throw e)

/-- search_internet embeds `SearchTools.search_internet` of
`src/Tools/search_tools.py`.  `apiKey` is the outcome of
`os.environ["SERPER_API_KEY"]` (a `KeyError` when unset), `resp` the outcome
of the POST request plus `response.json()`.  There is no try/except around
the call: those exceptions propagate.  A parsed body without an `"organic"`
key yields the canned apology string; otherwise the first 4 organic results
are formatted and joined with newlines. -/
def search_internet (apiKey : Py String) (resp : Py JsonVal) (query : String) :
    Py JsonVal := do
  let _ ← apiKey
  let data ← resp
  let present ← pyIn "organic" data
  if !present then
    return .str ("Sorry, I couldn\x27t find anything about that, there could be an error " ++
      "with you serper api key.")
  let results ← data.getItem "organic"
  match results with
  | .arr xs => do
      let formatted ← pyMapM fmtResult (xs.take 4)
      return .str (String.intercalate "\n" (formatted.filterMap id))
  | _ => .error (typeError "value cannot be sliced")

end SearchTools

namespace SelfRAG

/-- llm_json_request embeds `llm_json_request` of
`src/Working_Projects/SelfRAG/SelfRag.py`.  The try-block (the chat
completion request, the extraction of `choices[0].message.content`, and
`json.loads` of it) is passed in as the oracle `attempt`; `except Exception`
catches exactly the raised errors whose class subclasses `Exception` and
returns the placeholder `{"score": "no"}` for them. -/
def llm_json_request (attempt : Py JsonVal) : Py JsonVal :=
  match attempt with
  | .ok j => .ok j
  | .error e => if e.isException then .ok (.obj [("score", .str "no")]) else .error e

/-- grade_documents_tool embeds `grade_documents_tool` of
`src/Working_Projects/SelfRAG/SelfRag.py`.  The per-document grading
(`grade_relevance_async`, an LLM call returning a parsed JSON dict) is the
oracle `grader`, with the grading dicts embedded as string association
lists; `asyncio.gather` returns the grades in input order, so `results`
is the in-order map of `grader question` over the documents, and the list
comprehension over `zip(documents, results)` keeps a document when
`score.get("score", "no").lower() == "yes"`. -/
def grade_documents_tool (grader : String → String → List (String × String))
    (question : String) (documents : List String) : List String :=
  let results := documents.map (grader question)
  (documents.zip results).filterMap
    (fun dr => if ((dr.2.lookup "score").getD "no").toLower == "yes" then some dr.1 else none)

end SelfRAG

namespace Arxiv

/-- RetryOutcome is the final result of a retried call: a normal return, or
the tenacity RetryError raised once the stop condition is reached, wrapping
the last attempt's exception. -/
inductive RetryOutcome (α : Type) where
  | ok (a : α) : RetryOutcome α
  | retryError (last : PyExc) : RetryOutcome α
  deriving DecidableEq

/-- RetryRun records one run of a retried call: how many times the wrapped
function was invoked, the sleeps performed between consecutive attempts (in
seconds, in order), and the outcome. -/
structure RetryRun (α : Type) where
  calls : ℕ
  waits : List ℕ
  outcome : RetryOutcome α
  deriving DecidableEq

/-- retryGo models the retry loop of the tenacity library: `attempt` is the
1-based number of the current attempt, `remaining` how many further
attempts the stop condition still allows.  A successful attempt returns
immediately; a failed attempt with no attempts left raises RetryError
wrapping the exception (tenacity default `reraise=False`); otherwise the
loop sleeps `waitSec` seconds and retries. -/
def retryGo {α : Type} (f : ℕ → Py α) (waitSec attempt : ℕ) : ℕ → RetryRun α
  | 0 =>
    ⟨1, [], match f attempt with
            | .ok a => .ok a
            | .error e => .retryError e⟩
  | r + 1 =>
    match f attempt with
    | .ok a => ⟨1, [], .ok a⟩
    | .error _ =>
      let next := retryGo f waitSec (attempt + 1) r
      ⟨next.calls + 1, waitSec :: next.waits, next.outcome⟩

/-- download_papers_with_retry embeds `download_papers_with_retry` of
`src/Tools/arxiv.py`: the decorator
`@retry(stop=stop_after_attempt(3), wait=wait_fixed(10))` applied to a call
of `data.download_papers(...)`, whose outcome on the n-th attempt is the
oracle `f n`.  Per the tenacity semantics of those arguments, the body runs
at most 3 times with a fixed 10-second sleep after each failed non-final
attempt, and exhaustion raises RetryError. -/
def download_papers_with_retry (f : ℕ → Py Unit) : RetryRun Unit :=
  retryGo f 10 1 2

end Arxiv

namespace EmailWeather

/-- where_to_go embeds `where_to_go` of
`src/code_excercises/2.Langgraph/Langgraph_Agents/z-email-weather.py`:
route on the state's category string. -/
def where_to_go (category : String) : String :=
  if category == "email_query" then "email"
  else if category == "weather_query" then "weather"
  else "reply"

/-- GraphNode: the nodes of the LangGraph workflow of z-email-weather.py,
with endNode standing for the framework's END marker. -/
inductive GraphNode where
  | entryNode : GraphNode
  | emailNode : GraphNode
  | weatherNode : GraphNode
  | responder : GraphNode
  | endNode : GraphNode
  deriving DecidableEq

/-- cond_map embeds the dict argument of
`workflow.add_conditional_edges("entryNode", where_to_go, {...})`. -/
def cond_map : List (String × GraphNode) :=
  [("email", .emailNode), ("weather", .weatherNode), ("reply", .responder)]

/-- nextAfterEntry: the node the workflow enters after entryNode for a state
with the given category — the conditional-edge mapping applied to
where_to_go. -/
def nextAfterEntry (category : String) : Option GraphNode :=
  cond_map.lookup (where_to_go category)

/-- successors embeds the edge structure of the compiled workflow: the
conditional edges out of entryNode, the single `add_edge(_, END)` edge out
of each of emailNode, weatherNode, and responder, and no edge out of END. -/
def successors (category : String) : GraphNode → List GraphNode
  | .entryNode =>
    match nextAfterEntry category with
    | some n => [n]
    | none => []
  | .emailNode => [.endNode]
  | .weatherNode => [.endNode]
  | .responder => [.endNode]
  | .endNode => []

end EmailWeather

/-- pyJoin models `os.path.join(a, b)` on POSIX for the two-argument case:
an absolute second argument wins, otherwise the parts are joined with a
single separating slash (none added when the first part is empty or already
ends in a slash). -/
def pyJoin (a b : String) : String :=
  if b.data.head? = some '/' then b
  else if a = "" ∨ a.data.getLast? = some '/' then a ++ b
  else a ++ "/" ++ b

namespace FolderSearch

/-- DirnameContracts: `os.path.dirname` either fixes a path (at a filesystem
root, or on a bare name whose dirname is the empty string) or returns a
strictly shorter path; posixpath.dirname has this property because its
result is always a proper prefix of a non-fixed argument, and the upward
search of folder_search.py terminates exactly because of it. -/
def DirnameContracts (dirname : String → String) : Prop :=
  ∀ p, dirname p = p ∨ (dirname p).length < p.length

/-- ancestorChain: the directories the loop of find_set_ais_utils_path
visits, from the start up to and including the first fixed point of
dirname. -/
def ancestorChain (dirname : String → String) (hd : DirnameContracts dirname)
    (current : String) : List String :=
  if h : dirname current = current then [current]
  else current :: ancestorChain dirname hd (dirname current)
termination_by current.length
decreasing_by
  rcases hd current with h1 | h1
  · exact absurd h1 h
  · exact h1

/-- find_set_ais_utils_path embeds `find_set_ais_utils_path` of
`src/folder_search.py`.  The filesystem test `os.path.isdir` is the oracle
isDir and `os.path.dirname` the oracle dirname, constrained by
DirnameContracts; the `sys.path.append` side effect is dropped.  Starting
from current_dir, the loop checks `os.path.join(current_dir,
search_folder)`, returns it when it is a directory, and otherwise moves to
the parent until the parent equals the current directory, where it raises
FileNotFoundError with the message of the source. -/
def find_set_ais_utils_path (isDir : String → Bool) (dirname : String → String)
    (hd : DirnameContracts dirname) (search_folder current_dir : String) :
    Except String String :=
  if isDir (pyJoin current_dir search_folder) then .ok (pyJoin current_dir search_folder)
  else if h : dirname current_dir = current_dir then
    .error (search_folder ++ " folder not found in the hierarchy")
  else find_set_ais_utils_path isDir dirname hd search_folder (dirname current_dir)
termination_by current_dir.length
decreasing_by
  rcases hd current_dir with h1 | h1
  · exact absurd h1 h
  · exact h1

end FolderSearch

/-- argminIdx models `min(range(len(xs)), key=lambda i: xs[i])`: the first
index of a minimal element (Python's min returns the first argument
attaining the minimal key); 0 on the empty list, where Python raises
before this is reached. -/
def argminIdx (xs : List ℕ) : ℕ :=
  match xs.min? with
  | some m => xs.indexOf m
  | none => 0

namespace SearchTools

/-- get_current_temperature embeds `get_current_temperature` of
`src/Tools/search_tools.py`.  `status` and `body` are the HTTP response
(the parse outcome of `response.json()` is consumed only in the 200
branch, exactly as in the source); a non-200 status raises
`Exception(f"API Request failed with status code: {status}")`.
`isoParse` is the oracle for `datetime.datetime.fromisoformat` (embedding
datetimes as integers), applied after `time_str.replace("Z", "+00:00")`,
and `now` embeds `datetime.datetime.utcnow()`.  The closest time index is
the first index minimising `abs(time_list[i] - now)`, and the result is the
f-string naming `temperature_list[closest_time_index]`. -/
def get_current_temperature (status : ℕ) (body : Py JsonVal)
    (isoParse : String → Py ℤ) (now : ℤ) : Py JsonVal := do
  let results ← (if status == 200 then body
    else .error ⟨"Exception", "API Request failed with status code: " ++ toString status, true⟩)
  let hourly ← results.getItem "hourly"
  let timesJ ← hourly.getItem "time"
  let times ← (match timesJ with
    | .arr xs => pyMapM (fun x => match x with
        | .str s => isoParse (s.replace "Z" "+00:00")
        | _ => .error (attributeError "replace expects a string")) xs
    | _ => .error (typeError "value is not iterable"))
  let tempsJ ← hourly.getItem "temperature_2m"
  if times.isEmpty then
    .error (valueError "min() arg is an empty sequence")
  else
    let idx := argminIdx (times.map (fun t => (t - now).natAbs))
    match tempsJ with
    | .arr vs =>
      match vs.get? idx with
      | some v => .ok (.str ("The current temperature is " ++ pyToStr v ++ "°C"))
      | none => .error (indexError "list index out of range")
    | _ => .error (typeError "value is not subscriptable by an integer")

/-- weatherJson builds the open-meteo response body shape consumed by the
200 branch of get_current_temperature:
`{"hourly": {"time": [...], "temperature_2m": [...]}}`. -/
def weatherJson (tstrs : List String) (temps : List ℚ) : JsonVal :=
  .obj [("hourly", .obj [("time", .arr (tstrs.map .str)),
                         ("temperature_2m", .arr (temps.map .num))])]

end SearchTools

/-- pyFalsy models Python truthiness of an optional string under `not x`:
both `None` and the empty string are falsy. -/
def pyFalsy : Option String → Bool
  | none => true
  | some s => s == ""

namespace Papers

/-- DlRun records one run of the medRxiv branch of download_papers: the
lines it prints, in order (the folder-creation message first), and the
Python return value, which is None on every non-raising path. -/
structure DlRun where
  printed : List String
  ret : Option JsonVal

/-- processPaper embeds one iteration of the paper loop of the medRxiv
branch of `Papers.download_papers` in `src/Tools/arxiv.py`: the title
cleanup `paper["title"].strip().replace(" ", "_").replace("/", "_")` and
the doi-based URL are computed outside the try (their exceptions
propagate), while the pdf fetch and save inside `try/except Exception`
turn any Exception-subclass error into a printed message; the fetch outcome
(status code of the GET plus the file save) is the oracle pdfFetch. -/
def processPaper (pdfFetch : String → Py ℕ) (download_path : String) (paper : JsonVal) :
    Py (List String) := do
  let titleJ ← paper.getItem "title"
  let title ← (match titleJ with
    | .str s => Except.ok ((s.trim.replace " " "_").replace "/" "_")
    | _ => .error (attributeError "strip expects a string"))
  let doiJ ← paper.getItem "doi"
  let pdf_url := "https://www.medrxiv.org/content/" ++ pyToStr doiJ ++ ".full.pdf"
  let header := "Attempting to download " ++ title ++ " from " ++ pdf_url
  match pdfFetch pdf_url with
  | .ok code =>
    if code == 200 then
      .ok [header, title ++ " Downloaded to " ++ pyJoin download_path (title ++ ".pdf") ++ "."]
    else
      .ok [header, "Failed to download " ++ title ++ ". Status code: " ++ toString code]
  | .error e =>
    if e.isException then
      .ok [header, "An error occurred while downloading " ++ title ++ ": " ++ e.msg]
    else .error e

/-- download_papers_medrxiv embeds the `server == "medrxiv"` branch of
`Papers.download_papers` in `src/Tools/arxiv.py` (the arxiv branch is a
separate client loop the claims do not touch).  `folderExists` drives the
create_data_folder print; `if not start_date or not end_date` is Python
truthiness, so a missing or empty date prints an error and returns None; a
non-200 status prints the failure message and returns None; only then is
the body parsed (`response.json()` raising propagates), an empty or absent
"collection" prints and returns None, and otherwise the paper loop runs.
The Python function returns None on every non-raising path. -/
def download_papers_medrxiv (folderExists : Bool) (start_date end_date : Option String)
    (status : ℕ) (body : Py JsonVal) (pdfFetch : String → Py ℕ)
    (download_path : String) : Py DlRun :=
  let p0 := if folderExists then "Output folder already exists." else "Output folder created"
  if pyFalsy start_date || pyFalsy end_date then
    .ok ⟨[p0, "Error: \x27start_date\x27 and \x27end_date\x27 are required for medRxiv."], none⟩
  else if status ≠ 200 then
    .ok ⟨[p0, "Failed to retrieve data from MedRxiv API. Status code: " ++ toString status],
         none⟩
  else do
    let data ← body
    let present ← pyIn "collection" data
    if !present then
      return ⟨[p0, "No papers found with the given search query."], none⟩
    let coll ← data.getItem "collection"
    let n ← pyLen coll
    if n == 0 then
      return ⟨[p0, "No papers found with the given search query."], none⟩
    match coll with
    | .arr papers => do
        let logs ← pyMapM (processPaper pdfFetch download_path) papers
        return ⟨[p0] ++ logs.join, none⟩
    | _ => .error (typeError "string indices must be integers")

end Papers

/-- rootOnlyDirname is a one-step concrete dirname used by the C10 witness:
every nonempty path's parent is the empty string, which is its own
parent. -/
def rootOnlyDirname : String → String := fun _ => ""

/-- pyEvalFloat models the try-block `float(eval(expression))` of
`calculate`, from Python semantics, on the two inputs the theorems use:
under CPython, `eval("exit()")` calls the `site` builtin `exit`, which
raises `SystemExit` — a `BaseException` that does not subclass
`Exception` — and `eval("1+1")` returns `2`, which `float` converts to
`2.0`.  Every other string is mapped to a generic `Exception`-subclass
error (a `SyntaxError`), standing for an arbitrary unmodelled input. -/
def pyEvalFloat : String → Py PFloat :=
  fun s =>
    if s = "exit()" then .error ⟨"SystemExit", "", false⟩
    else if s = "1+1" then .ok (.val 2)
    else .error ⟨"SyntaxError", "unmodelled expression", true⟩

/-- sample_rates is a concrete exchange-rate API body used by the
counterexamples: `{"rates": {"PKR": 280}}`. -/
def sample_rates : JsonVal := .obj [("rates", .obj [("PKR", .num 280)])]

/-- mass_if_chain is the case analysis asserted by claim C8: the table value
on the eight lowercased planet names, NaN on everything else. -/
def mass_if_chain (t : String) : PFloat :=
  if t = "mercury" then .val 330110000000000000000000
  else if t = "venus" then .val 4867500000000000000000000
  else if t = "earth" then .val 5972300000000000000000000
  else if t = "mars" then .val 641710000000000000000000
  else if t = "jupiter" then .val 1898200000000000000000000000
  else if t = "saturn" then .val 568340000000000000000000000
  else if t = "uranus" then .val 86810000000000000000000000
  else if t = "neptune" then .val 102413000000000000000000000
  else .nan

/-- C8: for every input string, `get_planet_mass` never raises (it is total)
and is case-insensitive: it returns the fixed table mass in kilograms when
the lowercased input is one of the eight planet names, and NaN for every
other string. -/
theorem get_planet_mass_table (s : String) :
    Phi.get_planet_mass s = mass_if_chain s.toLower := by
  have step : ∀ (t k : String) (q : ℚ) (rest : List (String × ℚ)),
      List.lookup t ((k, q) :: rest) = if t = k then some q else List.lookup t rest := by
    intro t k q rest
    by_cases h : t = k
    · simp [List.lookup, h]
    · simp [List.lookup, h, beq_eq_false_iff_ne.mpr h]
  simp only [Phi.get_planet_mass, Phi.planet_masses, mass_if_chain, step, List.lookup_nil]
  split_ifs <;> rfl

/-- pyBind_ok: binding a successful embedded Python step runs the
continuation. -/
theorem pyBind_ok {α β : Type} (a : α) (f : α → Py β) :
    (Except.ok a : Py α) >>= f = f a := rfl

/-- pyBind_err: a raised exception propagates through a bind. -/
theorem pyBind_err {α β : Type} (e : PyExc) (f : α → Py β) :
    (Except.error e : Py α) >>= f = .error e := rfl

/-- pyPure: pure in the embedded Python monad is a normal return. -/
theorem pyPure {α : Type} (a : α) : (pure a : Py α) = .ok a := rfl

/-- zip_map_filterMap: filtering the pairs of a list zipped with its own map
by a predicate on the mapped component is filtering the list by the
composed predicate; this is the shape of the Python list comprehension
`[doc for doc, score in zip(documents, results) if p(score)]` with
`results = [g(doc) for doc in documents]`. -/
theorem zip_map_filterMap {α β : Type} (g : α → β) (p : β → Bool) (l : List α) :
    (l.zip (l.map g)).filterMap (fun ab => if p ab.2 then some ab.1 else none) =
      l.filter (fun a => p (g a)) := by
  induction l with
  | nil => rfl
  | cons d t ih =>
    simp only [List.map_cons, List.zip_cons_cons, List.filterMap_cons, List.filter_cons]
    cases hp : p (g d) <;> simp [hp, ih]

/-- lookup_some_any: a successful association-list lookup means the key test
of the Python `in` check succeeds. -/
theorem lookup_some_any {β : Type} (l : List (String × β)) (k : String) (v : β)
    (h : l.lookup k = some v) : l.any (fun f => f.1 == k) = true := by
  induction l with
  | nil => simp [List.lookup] at h
  | cons p t ih =>
    rcases p with ⟨k1, v1⟩
    by_cases hk : k = k1
    · simp [List.any_cons, hk]
    · have hl : List.lookup k ((k1, v1) :: t) = List.lookup k t := by
        simp [List.lookup, beq_eq_false_iff_ne.mpr hk]
      rw [hl] at h
      simp [List.any_cons, ih h]

/-- C1 as stated is false: none of the three wrappers has a try/except
around its HTTP call, so when the underlying call raises (here a
ConnectionError, modelling a network failure) each of `curr_conv`,
`currency_converter`, and `search_internet` propagates the exception to its
caller instead of returning an error string or a canned response. -/
theorem http_wrappers_raise_counterexample :
    Tools.curr_conv (.error connError) 1 "USD" "PKR" = .error connError ∧
    Phi.currency_converter (.error connError) 1 "USD" "PKR" = .error connError ∧
    SearchTools.search_internet (.ok "key") (.error connError) "top world news" =
      .error connError :=
  ⟨rfl, rfl, rfl⟩

/-- C1 amended: the HTTP wrapper functions have no try/except around the
HTTP or parse call, so every exception raised there propagates to the
caller (including a missing SERPER_API_KEY in search_internet); error
strings are returned only for the in-band conditions the code checks — a
target currency absent from the rates table, or a parsed search response
without an "organic" key. -/
theorem http_wrappers_propagate (e : PyExc) (resp : Py JsonVal) (amount : ℚ)
    (src tgt key query : String) (rates fields : List (String × JsonVal)) :
    Tools.curr_conv (.error e) amount src tgt = .error e ∧
    Phi.currency_converter (.error e) amount src tgt = .error e ∧
    Workshop.currency_converter (.error e) amount src tgt = .error e ∧
    SearchTools.search_internet (.ok key) (.error e) query = .error e ∧
    SearchTools.search_internet (.error e) resp query = .error e ∧
    (rates.any (fun f => f.1 == tgt) = false →
      Tools.curr_conv (.ok (.obj [("rates", .obj rates)])) amount src tgt =
        .ok (.str ("Error: Target currency \x27" ++ tgt ++
          "\x27 not available in the exchange rates.")) ∧
      Phi.currency_converter (.ok (.obj [("rates", .obj rates)])) amount src tgt =
        .ok (.str ("Error: Target currency \x27" ++ tgt ++
          "\x27 not available in the exchange rates."))) ∧
    (fields.any (fun f => f.1 == "organic") = false →
      SearchTools.search_internet (.ok key) (.ok (.obj fields)) query =
        .ok (.str ("Sorry, I couldn\x27t find anything about that, there could be an error " ++
          "with you serper api key."))) := by
  refine ⟨rfl, rfl, rfl, rfl, rfl, fun h => ⟨?_, ?_⟩, fun h => ?_⟩
  · simp [Tools.curr_conv, pyBind_ok, pyBind_err, pyPure, JsonVal.getItem, pyIn,
      List.lookup, h]
  · simp [Phi.currency_converter, pyBind_ok, pyBind_err, pyPure, JsonVal.getItem, pyIn,
      List.lookup, h]
  · simp [SearchTools.search_internet, pyBind_ok, pyBind_err, pyPure, pyIn, h]

/-- http_wrappers_propagate_witness instantiates the amended C1 theorem at a
concrete rates table lacking the target currency. -/
theorem http_wrappers_propagate_witness :
    Tools.curr_conv (.ok (.obj [("rates", .obj [("EUR", .num 1)])])) 1 "USD" "XYZ" =
      .ok (.str "Error: Target currency \x27XYZ\x27 not available in the exchange rates.") :=
  ((http_wrappers_propagate connError (.ok .null) 1 "USD" "XYZ" "key" "q"
    [("EUR", .num 1)] []).2.2.2.2.2.1 rfl).1

/-- C3: grade_documents_tool returns exactly the subsequence of the input
documents, in order, whose grading result has a "score" equal to "yes"
after lowercasing; a grading result without a "score" key defaults to "no"
and is dropped, and the output is always a sublist of the input. -/
theorem grade_documents_tool_filters (grader : String → String → List (String × String))
    (question : String) (documents : List String) :
    SelfRAG.grade_documents_tool grader question documents =
      documents.filter
        (fun doc => (((grader question doc).lookup "score").getD "no").toLower == "yes") ∧
    (SelfRAG.grade_documents_tool grader question documents).Sublist documents := by
  have h1 : SelfRAG.grade_documents_tool grader question documents =
      documents.filter
        (fun doc => (((grader question doc).lookup "score").getD "no").toLower == "yes") := by
    simp only [SelfRAG.grade_documents_tool]
    exact zip_map_filterMap (grader question)
      (fun sc => ((sc.lookup "score").getD "no").toLower == "yes") documents
  refine ⟨h1, ?_⟩
  rw [h1]
  exact List.filter_sublist _

/-- C4: llm_json_request is total at its interface: given that the LLM
request and JSON parse raise only Exception-subclass errors (which is all
an HTTP client or json.loads raises), it returns the parsed JSON object on
success, the placeholder dict on a raised exception, and never propagates. -/
theorem llm_json_request_never_raises (attempt : Py JsonVal)
    (h : ∀ e, attempt = .error e → e.isException = true) :
    (∀ j, attempt = .ok j → SelfRAG.llm_json_request attempt = .ok j) ∧
    (∀ e, attempt = .error e →
      SelfRAG.llm_json_request attempt = .ok (.obj [("score", .str "no")])) ∧
    ∃ j, SelfRAG.llm_json_request attempt = .ok j := by
  cases attempt with
  | ok j =>
    exact ⟨fun j2 hj => by cases hj; rfl, fun e he => by simp at he, ⟨j, rfl⟩⟩
  | error e =>
    have hE := h e rfl
    exact ⟨fun j hj => by simp at hj,
      fun e2 he2 => by simp [SelfRAG.llm_json_request, hE],
      ⟨.obj [("score", .str "no")], by simp [SelfRAG.llm_json_request, hE]⟩⟩

/-- llm_json_request_never_raises_witness instantiates the C4 theorem at a
concrete JSON decoding failure. -/
theorem llm_json_request_never_raises_witness :
    SelfRAG.llm_json_request (.error ⟨"JSONDecodeError", "Expecting value", true⟩) =
      .ok (.obj [("score", .str "no")]) :=
  (llm_json_request_never_raises (.error ⟨"JSONDecodeError", "Expecting value", true⟩)
    (fun e he => by cases he; rfl)).2.1 ⟨"JSONDecodeError", "Expecting value", true⟩ rfl

/-- C6 as stated is false: on the same parsed rates table {"rates":
{"PKR": 280}} with amount 1, curr_conv returns the formatted string while
the phi-experiments currency_converter returns the bare number, so the
copies are not behaviorally equivalent. -/
theorem phi_currency_converter_differs :
    Tools.curr_conv (.ok sample_rates) 1 "USD" "PKR" =
      .ok (.str "1.00 USD is equivalent to: 280.00 PKR") ∧
    Phi.currency_converter (.ok sample_rates) 1 "USD" "PKR" = .ok (.num 280) ∧
    Tools.curr_conv (.ok sample_rates) 1 "USD" "PKR" ≠
      Phi.currency_converter (.ok sample_rates) 1 "USD" "PKR" := by
  have hf1 : format2f 1 = "1.00" := by
    unfold format2f
    rw [show round ((1 : ℚ) * 100) = 100 by norm_num [round_eq]]
    decide
  have hf2 : format2f (280 : ℚ) = "280.00" := by
    unfold format2f
    rw [show (280 : ℚ) * 100 = 28000 by norm_num]
    rw [show round ((28000 : ℚ)) = 28000 by norm_num [round_eq]]
    decide
  have h1 : Tools.curr_conv (.ok sample_rates) 1 "USD" "PKR" =
      .ok (.str "1.00 USD is equivalent to: 280.00 PKR") := by
    simp [Tools.curr_conv, sample_rates, pyBind_ok, pyBind_err, pyPure, JsonVal.getItem,
      pyIn, List.lookup, JsonVal.asNum, hf1, hf2]
  have h2 : Phi.currency_converter (.ok sample_rates) 1 "USD" "PKR" = .ok (.num 280) := by
    have h280 : (280 : ℚ) * 1 = 280 := by norm_num
    simp [Phi.currency_converter, sample_rates, pyBind_ok, pyBind_err, pyPure,
      JsonVal.getItem, pyIn, List.lookup, JsonVal.asNum, h280]
  refine ⟨h1, h2, ?_⟩
  rw [h1, h2]
  intro h
  simp at h

/-- C6 amended: the Tools curr_conv and the Agents-workshop
currency_converter are behaviorally equivalent (the same formatted string
for every response, amount, and currency pair), but the phi-experiments
currency_converter returns the bare converted number r * amount where the
other two return the `:.2f`-formatted sentence. -/
theorem currency_wrappers_equivalence (resp : Py JsonVal) (amount : ℚ) (src tgt : String) :
    Workshop.currency_converter resp amount src tgt = Tools.curr_conv resp amount src tgt ∧
    (∀ (fields rfields : List (String × JsonVal)) (r : ℚ),
      resp = .ok (.obj fields) →
      fields.lookup "rates" = some (.obj rfields) →
      rfields.lookup tgt = some (.num r) →
      Tools.curr_conv resp amount src tgt =
        .ok (.str (format2f amount ++ " " ++ src ++ " is equivalent to: " ++
          format2f (r * amount) ++ " " ++ tgt)) ∧
      Phi.currency_converter resp amount src tgt = .ok (.num (r * amount))) := by
  refine ⟨rfl, fun fields rfields r hresp h1 h2 => ?_⟩
  subst hresp
  have hin : rfields.any (fun f => f.1 == tgt) = true := lookup_some_any _ _ _ h2
  constructor
  · simp [Tools.curr_conv, pyBind_ok, pyBind_err, pyPure, JsonVal.getItem, pyIn, h1, h2,
      hin, JsonVal.asNum]
  · simp [Phi.currency_converter, pyBind_ok, pyBind_err, pyPure, JsonVal.getItem, pyIn,
      h1, h2, hin, JsonVal.asNum]

/-- currency_wrappers_equivalence_witness instantiates the amended C6
theorem on the sample rates table. -/
theorem currency_wrappers_equivalence_witness :
    Phi.currency_converter (.ok sample_rates) 1 "USD" "PKR" = .ok (.num ((280 : ℚ) * 1)) :=
  ((currency_wrappers_equivalence (.ok sample_rates) 1 "USD" "PKR").2
    [("rates", .obj [("PKR", .num 280)])] [("PKR", .num 280)] 280 rfl rfl rfl).2

/-- C9 as stated is false: `except Exception` does not catch `SystemExit`,
so `calculate("exit()")` — where `eval` calls the builtin `exit`, raising
`SystemExit` — propagates the exception to the caller instead of
returning NaN. -/
theorem calculate_propagates_system_exit :
    Phi.calculate pyEvalFloat "exit()" = .error ⟨"SystemExit", "", false⟩ := rfl

/-- C9 amended: calculate returns the converted float when the try-block
succeeds and NaN when it raises an Exception instance, but a raised
BaseException that does not subclass Exception (such as SystemExit)
propagates to the caller. -/
theorem calculate_catches_exception_instances (body : String → Py PFloat)
    (expression : String) :
    (∀ f, body expression = .ok f → Phi.calculate body expression = .ok f) ∧
    (∀ e, body expression = .error e → e.isException = true →
      Phi.calculate body expression = .ok .nan) ∧
    (∀ e, body expression = .error e → e.isException = false →
      Phi.calculate body expression = .error e) :=
  ⟨fun f h => by simp [Phi.calculate, h],
   fun e h he => by simp [Phi.calculate, h, he],
   fun e h he => by simp [Phi.calculate, h, he]⟩

/-- calculate_catches_exception_instances_witness instantiates the amended
C9 theorem on a successful evaluation. -/
theorem calculate_catches_exception_instances_witness :
    Phi.calculate pyEvalFloat "1+1" = .ok (.val 2) :=
  (calculate_catches_exception_instances pyEvalFloat "1+1").1 (.val 2) rfl

/-- C5 as stated is false on the exhaustion behaviour: with every attempt
failing (here with a ConnectionError), download_papers_with_retry makes
exactly 3 calls with two fixed 10-second waits, but the run ends in a
raised RetryError wrapping the last exception — the error is propagated to
the caller, not swallowed. -/
theorem retry_exhaustion_raises :
    Arxiv.download_papers_with_retry (fun _ => .error connError) =
      ⟨3, [10, 10], .retryError connError⟩ := rfl

/-- C5 amended: download_papers_with_retry invokes its body at most 3
times, every wait between consecutive attempts is the fixed 10 seconds, a
first-attempt success returns immediately, and when all 3 attempts raise,
the run ends with a RetryError wrapping the third exception (propagated to
the caller). -/
theorem retry_at_most_three_fixed_wait (f : ℕ → Py Unit) :
    (Arxiv.download_papers_with_retry f).calls ≤ 3 ∧
    (∀ w ∈ (Arxiv.download_papers_with_retry f).waits, w = 10) ∧
    (∀ a, f 1 = .ok a → Arxiv.download_papers_with_retry f = ⟨1, [], .ok a⟩) ∧
    (∀ e1 e2 e3, f 1 = .error e1 → f 2 = .error e2 → f 3 = .error e3 →
      Arxiv.download_papers_with_retry f = ⟨3, [10, 10], .retryError e3⟩) := by
  rcases h1 : f 1 with e1 | a1
  · rcases h2 : f 2 with e2 | a2
    · rcases h3 : f 3 with e3 | a3
      · have hrun : Arxiv.download_papers_with_retry f = ⟨3, [10, 10], .retryError e3⟩ := by
          simp [Arxiv.download_papers_with_retry, Arxiv.retryGo, h1, h2, h3]
        refine ⟨by simp [hrun],
          by simp [hrun],
          fun a ha => by simp at ha,
          fun x y z hx hy hz => ?_⟩
        injection hz with hz
        rw [hz] at hrun
        exact hrun
      · have hrun : Arxiv.download_papers_with_retry f = ⟨3, [10, 10], .ok a3⟩ := by
          simp [Arxiv.download_papers_with_retry, Arxiv.retryGo, h1, h2, h3]
        exact ⟨by simp [hrun],
          by simp [hrun],
          fun a ha => by simp at ha,
          fun x y z hx hy hz => by simp at hz⟩
    · have hrun : Arxiv.download_papers_with_retry f = ⟨2, [10], .ok a2⟩ := by
        simp [Arxiv.download_papers_with_retry, Arxiv.retryGo, h1, h2]
      exact ⟨by simp [hrun],
        by simp [hrun],
        fun a ha => by simp at ha,
        fun x y z hx hy hz => by simp at hy⟩
  · have hrun : Arxiv.download_papers_with_retry f = ⟨1, [], .ok a1⟩ := by
      simp [Arxiv.download_papers_with_retry, Arxiv.retryGo, h1]
    refine ⟨by simp [hrun],
      by simp [hrun],
      fun a ha => ?_, fun x y z hx hy hz => by simp at hx⟩
    exact hrun

/-- retry_at_most_three_fixed_wait_witness instantiates the amended C5
theorem at a first-attempt success. -/
theorem retry_at_most_three_fixed_wait_witness :
    Arxiv.download_papers_with_retry (fun _ => .ok ()) = ⟨1, [], .ok ()⟩ :=
  (retry_at_most_three_fixed_wait (fun _ => .ok ())).2.2.1 () rfl

/-- C7 as stated is false on the fixed-successor conjunct: the node entered
after entryNode depends on the state's category — email_query routes to
emailNode and weather_query to weatherNode, so the step after entryNode is
not fixed. -/
theorem entry_successor_not_fixed :
    EmailWeather.nextAfterEntry "email_query" = some .emailNode ∧
    EmailWeather.nextAfterEntry "weather_query" = some .weatherNode ∧
    EmailWeather.nextAfterEntry "email_query" ≠ EmailWeather.nextAfterEntry "weather_query" := by
  refine ⟨rfl, rfl, ?_⟩
  decide

/-- C7 amended: where_to_go returns "email" iff the category is
"email_query", "weather" iff it is "weather_query", and "reply" for every
other category; correspondingly the workflow enters exactly one of
emailNode, weatherNode, responder after entryNode (emailNode iff
email_query, weatherNode iff weather_query, responder otherwise), and each
of those three nodes has the single edge to END. -/
theorem where_to_go_routing (category : String) :
    (EmailWeather.where_to_go category = "email" ↔ category = "email_query") ∧
    (EmailWeather.where_to_go category = "weather" ↔ category = "weather_query") ∧
    (category ≠ "email_query" → category ≠ "weather_query" →
      EmailWeather.where_to_go category = "reply") ∧
    (EmailWeather.nextAfterEntry category = some .emailNode ↔ category = "email_query") ∧
    (EmailWeather.nextAfterEntry category = some .weatherNode ↔ category = "weather_query") ∧
    (category ≠ "email_query" → category ≠ "weather_query" →
      EmailWeather.nextAfterEntry category = some .responder) ∧
    EmailWeather.successors category .emailNode = [.endNode] ∧
    EmailWeather.successors category .weatherNode = [.endNode] ∧
    EmailWeather.successors category .responder = [.endNode] := by
  by_cases h1 : category = "email_query"
  · subst h1
    decide
  · by_cases h2 : category = "weather_query"
    · subst h2
      decide
    · have e1 : (category == "email_query") = false := beq_eq_false_iff_ne.mpr h1
      have e2 : (category == "weather_query") = false := beq_eq_false_iff_ne.mpr h2
      refine ⟨?_, ?_, fun _ _ => ?_, ?_, ?_, fun _ _ => ?_, rfl, rfl, rfl⟩
      · simp [EmailWeather.where_to_go, e1, e2, h1]
      · simp [EmailWeather.where_to_go, e1, e2, h2]
      · simp [EmailWeather.where_to_go, e1, e2]
      · simp [EmailWeather.nextAfterEntry, EmailWeather.where_to_go, EmailWeather.cond_map,
          e1, e2, h1, List.lookup]
      · simp [EmailWeather.nextAfterEntry, EmailWeather.where_to_go, EmailWeather.cond_map,
          e1, e2, h2, List.lookup]
      · simp [EmailWeather.nextAfterEntry, EmailWeather.where_to_go, EmailWeather.cond_map,
          e1, e2, List.lookup]

/-- where_to_go_routing_witness instantiates the amended C7 theorem at a
category that is neither email_query nor weather_query. -/
theorem where_to_go_routing_witness :
    EmailWeather.where_to_go "greeting" = "reply" ∧
    EmailWeather.nextAfterEntry "greeting" = some .responder :=
  ⟨(where_to_go_routing "greeting").2.2.1 (by decide) (by decide),
   (where_to_go_routing "greeting").2.2.2.2.2.1 (by decide) (by decide)⟩

/-- rootOnlyDirname_contracts: the concrete dirname of the C10 witness
satisfies the contraction property. -/
theorem rootOnlyDirname_contracts : FolderSearch.DirnameContracts rootOnlyDirname := by
  intro p
  obtain ⟨data⟩ := p
  cases data with
  | nil => exact .inl rfl
  | cons c cs =>
    refine .inr ?_
    simp [rootOnlyDirname, String.length]

/-- C10: find_set_ais_utils_path terminates for every starting directory
(the definition itself carries the termination argument: dirname either
reaches a fixed point or strictly shortens the path), and it returns the
join with search_folder of the first directory in the ancestor chain for
which that join is a directory, or raises FileNotFoundError when no
directory in the chain up to the root qualifies. -/
theorem find_set_ais_utils_path_first_ancestor (isDir : String → Bool)
    (dirname : String → String) (hd : FolderSearch.DirnameContracts dirname)
    (search_folder start : String) :
    (∀ d, (FolderSearch.ancestorChain dirname hd start).find?
        (fun a => isDir (pyJoin a search_folder)) = some d →
      FolderSearch.find_set_ais_utils_path isDir dirname hd search_folder start =
        .ok (pyJoin d search_folder)) ∧
    ((FolderSearch.ancestorChain dirname hd start).find?
        (fun a => isDir (pyJoin a search_folder)) = none →
      FolderSearch.find_set_ais_utils_path isDir dirname hd search_folder start =
        .error (search_folder ++ " folder not found in the hierarchy")) := by
  suffices H : ∀ n (cur : String), cur.length = n →
      (∀ d, (FolderSearch.ancestorChain dirname hd cur).find?
          (fun a => isDir (pyJoin a search_folder)) = some d →
        FolderSearch.find_set_ais_utils_path isDir dirname hd search_folder cur =
          .ok (pyJoin d search_folder)) ∧
      ((FolderSearch.ancestorChain dirname hd cur).find?
          (fun a => isDir (pyJoin a search_folder)) = none →
        FolderSearch.find_set_ais_utils_path isDir dirname hd search_folder cur =
          .error (search_folder ++ " folder not found in the hierarchy")) by
    exact H start.length start rfl
  intro n
  induction n using Nat.strong_induction_on with
  | _ n ih =>
    intro cur hlen
    rw [FolderSearch.ancestorChain, FolderSearch.find_set_ais_utils_path]
    by_cases hdir : isDir (pyJoin cur search_folder)
    · have hpos : ∀ l : List String,
          List.find? (fun a => isDir (pyJoin a search_folder)) (cur :: l) = some cur :=
        fun l => @List.find?_cons_of_pos _ (fun a => isDir (pyJoin a search_folder)) cur l hdir
      constructor
      · intro d hfind
        rw [if_pos hdir]
        split at hfind
        · rw [hpos []] at hfind
          rw [Option.some.inj hfind]
        · rw [hpos _] at hfind
          rw [Option.some.inj hfind]
      · intro hfind
        exfalso
        split at hfind
        · rw [hpos []] at hfind
          cases hfind
        · rw [hpos _] at hfind
          cases hfind
    · have hneg : ∀ l : List String,
          List.find? (fun a => isDir (pyJoin a search_folder)) (cur :: l) =
            List.find? (fun a => isDir (pyJoin a search_folder)) l :=
        fun l => @List.find?_cons_of_neg _ (fun a => isDir (pyJoin a search_folder)) cur l
          (by simpa using hdir)
      by_cases hroot : dirname cur = cur
      · constructor
        · intro d hfind
          rw [dif_pos hroot, hneg []] at hfind
          simp at hfind
        · intro _
          rw [if_neg hdir, dif_pos hroot]
      · have hdec : (dirname cur).length < n := hlen ▸ (hd cur).resolve_left hroot
        have ihx := ih _ hdec (dirname cur) rfl
        constructor
        · intro d hfind
          rw [dif_neg hroot, hneg _] at hfind
          rw [if_neg hdir, dif_neg hroot]
          exact ihx.1 d hfind
        · intro hfind
          rw [dif_neg hroot, hneg _] at hfind
          rw [if_neg hdir, dif_neg hroot]
          exact ihx.2 hfind

/-- argminIdx_lt_length: on a nonempty list the first-minimum index is in
range. -/
theorem argminIdx_lt_length (l : List ℕ) (h : l ≠ []) : argminIdx l < l.length := by
  rcases hm : l.min? with _ | m
  · rw [List.min?_eq_none_iff] at hm
    exact absurd hm h
  · simp only [argminIdx, hm]
    exact List.indexOf_lt_length.mpr (List.min?_mem (fun a b => min_choice a b) hm)

/-- pyMapM_str_ok: the time-parsing loop over a list of json strings with a
total parser succeeds and returns the parses in order. -/
theorem pyMapM_str_ok (g : String → ℤ) (l : List String) :
    pyMapM (fun x => match x with
      | JsonVal.str s => (Except.ok (g s) : Py ℤ)
      | _ => .error (attributeError "replace expects a string")) (l.map JsonVal.str) =
    .ok (l.map g) := by
  induction l with
  | nil => rfl
  | cons d t ih => simp [pyMapM, pyBind_ok, ih]

/-- C2 as stated is false: on a 404 response get_current_temperature raises
an Exception naming the status code (instead of returning an error string),
and download_papers prints the failure message and returns None (instead of
returning an error string). -/
theorem non_200_raises_or_returns_none :
    SearchTools.get_current_temperature 404 (.ok .null) (fun _ => .error (valueError "x")) 0 =
      .error ⟨"Exception", "API Request failed with status code: 404", true⟩ ∧
    Papers.download_papers_medrxiv true (some "2003-07-31") (some "2024-08-01") 404
      (.ok .null) (fun _ => .error connError) "data" =
      .ok ⟨["Output folder already exists.",
            "Failed to retrieve data from MedRxiv API. Status code: 404"], none⟩ :=
  ⟨rfl, rfl⟩

set_option maxRecDepth 8000 in
/-- C2 amended: a 200 response yields a result computed from the parsed
JSON body (the temperature at the first index minimising the distance of
the parsed times to now, rendered into the result string), while with the
required dates provided and nonempty a non-200 response makes
get_current_temperature raise an Exception naming the status code and makes
download_papers print a failure message naming the status code and return
None; a missing or empty date makes download_papers print the
dates-required error and return None before any status is consulted. -/
theorem status_code_behaviour (status : ℕ) (body : Py JsonVal) (isoParse : String → Py ℤ)
    (now : ℤ) (folderExists : Bool) (sd ed : String) (pdfFetch : String → Py ℕ)
    (path : String) (clock : String → ℤ) (tstrs : List String) (temps : List ℚ) :
    (status ≠ 200 →
      SearchTools.get_current_temperature status body isoParse now =
        .error ⟨"Exception", "API Request failed with status code: " ++ toString status,
          true⟩) ∧
    (status ≠ 200 → sd ≠ "" → ed ≠ "" →
      Papers.download_papers_medrxiv folderExists (some sd) (some ed) status body pdfFetch
          path =
        .ok ⟨[if folderExists then "Output folder already exists." else "Output folder created",
              "Failed to retrieve data from MedRxiv API. Status code: " ++ toString status],
             none⟩) ∧
    (Papers.download_papers_medrxiv folderExists (some "") (some ed) status body pdfFetch
        path =
      .ok ⟨[if folderExists then "Output folder already exists." else "Output folder created",
            "Error: \x27start_date\x27 and \x27end_date\x27 are required for medRxiv."],
           none⟩) ∧
    (tstrs ≠ [] → temps.length = tstrs.length →
      SearchTools.get_current_temperature 200 (.ok (SearchTools.weatherJson tstrs temps))
          (fun s => .ok (clock s)) now =
        .ok (.str ("The current temperature is " ++
          pyNumRepr (temps.getD (argminIdx ((tstrs.map
            (fun s => clock (s.replace "Z" "+00:00"))).map
            (fun t => (t - now).natAbs))) 0) ++ "°C"))) := by
  refine ⟨fun h => ?_, fun h hsd hed => ?_, ?_, fun hne hlen => ?_⟩
  · simp [SearchTools.get_current_temperature, beq_eq_false_iff_ne.mpr h, pyBind_err]
  · simp [Papers.download_papers_medrxiv, pyFalsy, h, beq_eq_false_iff_ne.mpr hsd,
      beq_eq_false_iff_ne.mpr hed]
  · simp [Papers.download_papers_medrxiv, pyFalsy]
  · have hmapne : tstrs.map (fun s => clock (s.replace "Z" "+00:00")) ≠ [] := by
      intro hnil
      exact hne (by simpa using hnil)
    have hidx : argminIdx (List.map ((fun t => (t - now).natAbs) ∘
        fun s => clock (s.replace "Z" "+00:00")) tstrs) < temps.length := by
      rw [hlen, ← List.length_map tstrs ((fun t => (t - now).natAbs) ∘
        fun s => clock (s.replace "Z" "+00:00"))]
      exact argminIdx_lt_length _ (by simpa using hne)
    have hsome : temps[argminIdx (List.map ((fun t => (t - now).natAbs) ∘
        fun s => clock (s.replace "Z" "+00:00")) tstrs)]? =
        some (temps.getD (argminIdx (List.map ((fun t => (t - now).natAbs) ∘
          fun s => clock (s.replace "Z" "+00:00")) tstrs)) 0) := by
      rw [List.getElem?_eq_getElem hidx]
      simp [List.getD_eq_getElem?_getD, List.getElem?_eq_getElem hidx]
    simp [SearchTools.get_current_temperature, SearchTools.weatherJson, pyBind_ok,
      JsonVal.getItem, List.lookup, pyMapM_str_ok, List.isEmpty_eq_false, hmapne]
    rw [hsome]
    simp [pyToStr, pyRepr]

/-- status_code_behaviour_witness instantiates the amended C2 theorem: the
404 behaviours concretely (with nonempty dates), the empty-date early
return, and the 200 branch on a one-element forecast. -/
theorem status_code_behaviour_witness :
    SearchTools.get_current_temperature 404 (.ok .null) (fun _ => .error (valueError "x")) 5 =
      .error ⟨"Exception", "API Request failed with status code: 404", true⟩ ∧
    Papers.download_papers_medrxiv true (some "2003-07-31") (some "2024-08-01") 404
      (.ok .null) (fun _ => .error connError) "data" =
      .ok ⟨["Output folder already exists.",
            "Failed to retrieve data from MedRxiv API. Status code: 404"], none⟩ ∧
    Papers.download_papers_medrxiv true (some "") (some "2024-08-01") 404
      (.ok .null) (fun _ => .error connError) "data" =
      .ok ⟨["Output folder already exists.",
            "Error: \x27start_date\x27 and \x27end_date\x27 are required for medRxiv."],
           none⟩ ∧
    SearchTools.get_current_temperature 200
        (.ok (SearchTools.weatherJson ["2024-08-01T00:00"] [21])) (fun _ => .ok 0) 5 =
      .ok (.str "The current temperature is 21.0°C") := by
  have h := status_code_behaviour 404 (.ok .null) (fun _ => .error (valueError "x")) 5 true
    "2003-07-31" "2024-08-01" (fun _ => .error connError) "data" (fun _ => 0)
    ["2024-08-01T00:00"] [21]
  refine ⟨h.1 (by decide), h.2.1 (by decide) (by decide) (by decide), h.2.2.1, ?_⟩
  have h3 := h.2.2.2 (by decide) (by decide)
  exact h3.trans (congrArg Except.ok (congrArg JsonVal.str (by decide)))

/-- find_set_ais_utils_path_first_ancestor_witness instantiates the C10
theorem with a concrete filesystem: starting at "/home/app", the parent of
every nonempty path is "" (its own parent), only "utils" is a directory,
and the search returns it. -/
theorem find_set_ais_utils_path_first_ancestor_witness :
    FolderSearch.find_set_ais_utils_path (fun s => s == "utils") rootOnlyDirname
      rootOnlyDirname_contracts "utils" "/home/app" = .ok "utils" := by
  have hbase : FolderSearch.ancestorChain rootOnlyDirname rootOnlyDirname_contracts
      "" = [""] := by
    rw [FolderSearch.ancestorChain]
    simp [rootOnlyDirname]
  have hchain : FolderSearch.ancestorChain rootOnlyDirname rootOnlyDirname_contracts
      "/home/app" = ["/home/app", ""] := by
    rw [FolderSearch.ancestorChain]
    simp [rootOnlyDirname, hbase]
  have h := (find_set_ais_utils_path_first_ancestor (fun s => s == "utils")
    rootOnlyDirname rootOnlyDirname_contracts "utils" "/home/app").1 ""
  rw [hchain] at h
  exact h (by decide)

end AgenticDev
